import Mathlib

/-!
# Verification of the pyGHCND acquisition–normalization–statistics pipeline

A shallow embedding of the core of the pyGHCND repository
(`src/pyghcnd/core.py`, `src/pyghcnd/datastore.py`, and the earlier
variant `src/noaa_temps/core.py`), together with theorems settling the
frozen specification claims.

Conventions of the embedding:
* pandas timestamps become a `Date` structure ordered by the numeric key
  `year*10000 + month*100 + day`, which agrees with calendar order on
  valid dates;
* numeric observation values become `ℚ` (the claims under study concern
  exact formula correspondence and definedness, not rounding);
* IEEE special values (NaN / ±inf), which the statistics code relies on,
  become the inductive `FV` type with explicit NaN/inf propagation;
* a pandas DataFrame indexed by date becomes a list of
  `(Date, row)` pairs in index order; a missing cell is `Option.none`;
* external transcendental functions (`sqrt`, `log10`, the Student-t
  survival function) are parameterized by their finite part, since the
  claims only depend on their IEEE edge-case behaviour.
-/

namespace PyGHCND

/-! ### Definitions -/

/-- Calendar date as stored in the pandas DatetimeIndex. -/
structure Date where
  year : ℕ
  month : ℕ
  day : ℕ
  deriving DecidableEq, Repr


/-- Order key for dates; on valid calendar dates (`month ≤ 12`, `day ≤ 31`)
this is order isomorphic to pandas timestamp comparison. -/
def Date.key (d : Date) : ℕ := d.year * 10000 + d.month * 100 + d.day


/-- One raw GHCND record as returned by the provider and fed to
`GHCND.update_data` (fields `date`, `datatype`, `value`, `attributes`). -/
structure PObs where
  date : Date
  datatype : String
  value : ℚ
  attributes : String
  deriving DecidableEq, Repr


/-- Unit conversion performed per datatype group by `GHCND._raw_df_proc`
(core.py lines 183–188): TMIN/TMAX tenths-of-°C → °F, PRCP tenths-of-mm →
inch, SNOW/SNWD mm → inch; any other datatype passes through. -/
def convertPyg (datatype : String) (v : ℚ) : ℚ :=
  if datatype = "TMIN" ∨ datatype = "TMAX" then (v * (1/10)) * 9 / 5 + 32
  else if datatype = "PRCP" then (v * (1/10)) / (127/5)
  else if datatype = "SNOW" ∨ datatype = "SNWD" then v / (127/5)
  else v


/-- The spec's temperature formula `(v*0.1)*9/5+32`, written from the
spec text to compare against the code's conversion. -/
def specTempF (v : ℚ) : ℚ := (v * (1/10)) * 9 / 5 + 32


/-- The spec's precipitation formula `(v*0.1)/25.4` (25.4 = 127/5). -/
def specPrcpInch (v : ℚ) : ℚ := (v * (1/10)) / (127/5)


/-- The spec's snow formula `v/25.4`. -/
def specSnowInch (v : ℚ) : ℚ := v / (127/5)


/-- The four flag parts split out of the combined `attributes` string by
`GHCND._raw_df_proc` (`str.split(',', expand=True)` into columns
mflag, qflag, sflag, tobs).  A part absent from the string becomes NaN in
pandas; the first three are later filled to `""` (core.py line 92), the
`tobs` column is not, so it stays optional. -/
structure Flags where
  mflag : String
  qflag : String
  sflag : String
  tobs : Option String
  deriving DecidableEq, Repr


/-- Split the attribute string on commas into the four flag columns. -/
def splitFlags (s : String) : Flags :=
  let parts := s.splitOn ","
  { mflag := parts.getD 0 ""
    qflag := parts.getD 1 ""
    sflag := parts.getD 2 ""
    tobs := parts.get? 3 }


/-- One cell of the wide `_raw_full` table: the converted value for one
(date, datatype) position plus its flags.  A (date, datatype) pair with
no record pivots to a NaN value with empty (filled) string flags and a
missing `tobs`. -/
structure Cell where
  value : Option ℚ
  mflag : String
  qflag : String
  sflag : String
  tobs : Option String
  deriving DecidableEq, Repr


/-- The cell produced for a position covered by a record. -/
def Cell.ofObs (o : PObs) : Cell :=
  let f := splitFlags o.attributes
  { value := some (convertPyg o.datatype o.value)
    mflag := f.mflag, qflag := f.qflag, sflag := f.sflag, tobs := f.tobs }


/-- The cell produced for a position with no record (NaN value; string
flags filled to empty strings by core.py line 92; `tobs` left missing). -/
def Cell.empty : Cell := { value := none, mflag := "", qflag := "", sflag := "", tobs := none }


/-- A row of the wide table: one cell per datatype column. -/
abbrev PRow := List (String × Cell)


/-- The wide `_raw_full` table: one row per date, in index order. -/
abbrev PTable := List (Date × PRow)


/-- Insertion of an element into a list sorted by a numeric key. -/
def insertKeyed {α : Type} (k : α → ℕ) (x : α) : List α → List α
  | [] => [x]
  | y :: ys => if k x ≤ k y then x :: y :: ys else y :: insertKeyed k x ys


/-- Sort a list ascending by a numeric key (models the sorted unique
index produced by `DataFrame.pivot`). -/
def sortKeyed {α : Type} (k : α → ℕ) (l : List α) : List α :=
  l.foldr (insertKeyed k) []


/-- The distinct dates of a record batch, ascending: the index of the
pivoted table. -/
def pivotDates (obs : List PObs) : List Date :=
  sortKeyed Date.key ((obs.map PObs.date).dedup)


/-- The datatype columns of a record batch.  (pandas additionally sorts
the column axis — core.py line 96 — but no claim depends on column
order, so columns are kept in first-appearance order.) -/
def pivotCols (obs : List PObs) : List String :=
  (obs.map PObs.datatype).dedup


/-- The cell at a given (date, datatype) position: the converted record
if one exists, otherwise the NaN/filled cell.  (`DataFrame.pivot` raises
on duplicate (date, datatype) pairs; the embedding takes the first
record, which agrees with pivot on the duplicate-free batches the
provider contract promises.) -/
def cellAt (obs : List PObs) (d : Date) (c : String) : Cell :=
  match obs.find? (fun o => o.date = d ∧ o.datatype = c) with
  | some o => Cell.ofObs o
  | none => Cell.empty


/-- The pivot step of `GHCND.update_data` (core.py lines 84–96) applied
to an already leap-day-filtered batch: one row per distinct date in
ascending date order, one converted/flag-split cell per datatype. -/
def pivotPyg (obs : List PObs) : PTable :=
  (pivotDates obs).map (fun d => (d, (pivotCols obs).map (fun c => (c, cellAt obs d c))))


/-- Leap-day removal (core.py lines 80–82): drop every record whose date
is February 29. -/
def dropLeap (obs : List PObs) : List PObs :=
  obs.filter (fun o => ¬(o.date.month = 2 ∧ o.date.day = 29))


/-- The full normalization of one downloaded batch inside
`GHCND.update_data` (lines 78–96): leap-day removal, then per-datatype
conversion and flag split, then pivot. -/
def rawNew (results : List PObs) : PTable :=
  pivotPyg (dropLeap results)


/-- The merge step of `GHCND.update_data` (core.py lines 99–101): drop
every stored row whose date is ≥ the incoming table's first index entry,
then append the incoming table.  An empty incoming table makes
`raw_new.index[0]` raise in the source; that branch is unreachable under
the `results != []` guard and is modelled as keeping the old table. -/
def mergeStep (old new : PTable) : PTable :=
  match new.head? with
  | some h => old.filter (fun r => r.1.key < h.1.key) ++ new
  | none => old


/-- Existing series for the concrete merge instance: ends 2023-06-30,
with rows both before and inside the superseded range. -/
def c1Old : PTable := [(⟨2022, 12, 31⟩, []), (⟨2023, 5, 1⟩, []), (⟨2023, 6, 30⟩, [])]


/-- Incoming batch for the concrete merge instance: starts 2023-01-01. -/
def c1New : PTable := [(⟨2023, 1, 1⟩, []), (⟨2023, 1, 2⟩, [])]


/-! ## The data-state transition of `update_data` and leap-day exclusion -/
/-- The table-state transition performed by one `GHCND.update_data` call
once the download loop has produced `results` (core.py lines 75–104):
an empty result list leaves the stored table untouched; otherwise the
batch is normalized and either merged into the existing table or
installed as the first table. -/
def updateTable (old : Option PTable) (results : List PObs) : Option PTable :=
  if results = [] then old
  else
    match old with
    | some t => some (mergeStep t (rawNew results))
    | none => some (rawNew results)


/-- States of the persisted historical series reachable from the initial
no-data state by `update_data` calls. -/
inductive Reachable : Option PTable → Prop
  | init : Reachable none
  | step (s : Option PTable) (results : List PObs) :
      Reachable s → Reachable (updateTable s results)


/-- A table holds no February 29 row. -/
def NoLeap (t : PTable) : Prop := ∀ p ∈ t, ¬(p.1.month = 2 ∧ p.1.day = 29)


/-- A concrete batch containing a February 29 record. -/
def c7Batch : List PObs :=
  [⟨⟨2020, 2, 29⟩, "TMAX", 10, "a,b,c,0700"⟩, ⟨⟨2020, 3, 1⟩, "TMAX", 20, ",,W,"⟩]


/-! ## Unit conversion (C8) -/
/-- The temperature conversion of the `noaa_temps` variant
(`NOAAWeatherCore._raw_df_proc`, core.py lines 92–93). -/
def nConvTemp (v : ℚ) : ℚ := (v * (1/10)) * 9 / 5 + 32


/-- The precipitation conversion of the `noaa_temps` variant (line 98). -/
def nConvPrcp (v : ℚ) : ℚ := (v * (1/10)) / (127/5)


/-- The snow conversion of the `noaa_temps` variant (lines 99–100). -/
def nConvSnow (v : ℚ) : ℚ := v / (127/5)


/-! ## The checkpointed download loop (C2)

`GHCND.update_data` (core.py lines 42–73): the start year is derived
from the stored series' last date (or the station start year), but if
the checkpoint file exists its `[begin, results]` pair replaces both.
The loop then fetches year by year, extending `results` and rewriting
the checkpoint with the advanced year after every fetch. -/
/-- The download loop: fetch each year of `[b, e)` in order, appending
each year's records to the accumulator.  Returns the final accumulator
together with the list of years actually requested, in request order.
`f` is the fixed remote data (year ↦ records). -/
def fetchLoop (f : ℕ → List PObs) (b e : ℕ) (acc : List PObs) : List PObs × List ℕ :=
  if b < e then
    let rest := fetchLoop f (b + 1) e (acc ++ f b)
    (rest.1, b :: rest.2)
  else (acc, [])
  termination_by e - b


/-- The checkpoint contents after the loop that started at year `b` with
an empty accumulator has completed `k` years: the advanced start year
and the records accumulated so far (core.py lines 70–73). -/
def ckptAfter (f : ℕ → List PObs) (b k : ℕ) : ℕ × List PObs :=
  (b + k, (fetchLoop f b (b + k) []).1)


/-- One `update_data` run over remote data `f`: `derivedBegin` is the
start year computed from the series' last date, `e` the exclusive end
year; a present checkpoint overrides both the start year and the empty
accumulator (core.py lines 56–63); the downloaded results then drive the
table transition `updateTable`. -/
def updateData (f : ℕ → List PObs) (derivedBegin e : ℕ)
    (ckpt : Option (ℕ × List PObs)) (old : Option PTable) : Option PTable :=
  let st := match ckpt with
    | some c => c
    | none => (derivedBegin, [])
  updateTable old (fetchLoop f st.1 e st.2).1


/-- Remote data for the concrete resume instance. -/
def c2Remote (y : ℕ) : List PObs := [⟨⟨y, 3, 1⟩, "TMAX", 100, ",,W,"⟩]


/-! ## The `noaa_temps` normalizer (`NOAAWeatherCore._raw_df_proc`)

The earlier variant pivots first, then drops leap days, converts units,
scrubs implausible temperatures, zero-fills precipitation/snow and
derives SNPR (core.py lines 79–105).  Cells are `Option ℚ` (`none` =
pandas NaN); a column as a whole may be absent from the pivoted frame
when its datatype never occurs in the batch. -/
/-- One raw record as consumed by `NOAAWeatherCore._raw_df_proc`; the
`value` is optional so a record with a NaN value can be expressed. -/
structure NObs where
  date : Date
  datatype : String
  value : Option ℚ
  deriving DecidableEq, Repr


/-- A pivoted row: one `(column, cell)` entry per datatype column. -/
abbrev NRow := List (String × Option ℚ)


/-- The pivoted frame: one row per date in index order. -/
abbrev NTable := List (Date × NRow)


/-- The datatype columns of a batch, in first-appearance order. -/
def ncols (rs : List NObs) : List String := (rs.map NObs.datatype).dedup


/-- The cell value at one (date, datatype) position of the pivot. -/
def nvalueAt (rs : List NObs) (d : Date) (c : String) : Option ℚ :=
  match rs.find? (fun o => o.date = d ∧ o.datatype = c) with
  | some o => o.value
  | none => none


/-- `data.pivot(columns='datatype', index='date', values='value')`
(core.py line 84). -/
def npivot (rs : List NObs) : NTable :=
  (sortKeyed Date.key ((rs.map NObs.date).dedup)).map
    (fun d => (d, (ncols rs).map (fun c => (c, nvalueAt rs d c))))


/-- Leap-day removal after the pivot (core.py lines 87–88). -/
def nDropLeap (t : NTable) : NTable :=
  t.filter (fun r => ¬(r.1.month = 2 ∧ r.1.day = 29))


/-- Apply a cell transform to one column of a row, leaving the other
columns alone (a single `data.COL = f(data.COL)` pandas statement); a
row without that column is unchanged. -/
def mapCol (c : String) (g : Option ℚ → Option ℚ) (row : NRow) : NRow :=
  row.map (fun p => if p.1 = c then (p.1, g p.2) else p)


/-- The implausible-temperature scrub `data.loc[data.T > 130., T] = nan`
(core.py lines 95–96): a NaN comparison is false, so NaN passes through. -/
def scrub130 (v : Option ℚ) : Option ℚ :=
  match v with
  | some x => if 130 < x then none else some x
  | none => none


/-- One column's share of `fillna(value={...:0})` (core.py line 103). -/
def fill0 (v : Option ℚ) : Option ℚ := some (v.getD 0)


/-- `data.PRCP + data.SNOW/10.` on one row (core.py line 105); NaN
propagates through pandas arithmetic. -/
def snprVal (p s : Option ℚ) : Option ℚ :=
  match p, s with
  | some a, some b => some (a + b / 10)
  | _, _ => none


/-- Pandas column assignment `data[c] = v` on one row: overwrite the
column if it exists, otherwise append it. -/
def setCol (c : String) (v : Option ℚ) (row : NRow) : NRow :=
  if (row.lookup c).isSome then mapCol c (fun _ => v) row else row ++ [(c, v)]


/-- Statements of core.py lines 92–98: temperature conversion for TMAX
and TMIN, the > 130 °F scrub for both, and the PRCP conversion. -/
def nStageTempPrcp (row : NRow) : NRow :=
  mapCol "PRCP" (Option.map nConvPrcp)
    (mapCol "TMIN" scrub130 (mapCol "TMAX" scrub130
      (mapCol "TMIN" (Option.map nConvTemp) (mapCol "TMAX" (Option.map nConvTemp) row))))


/-- Line 99: `if hasattr(data, 'SNOW'): data.SNOW = data.SNOW/25.4`. -/
def nStageSnow (cols : List String) (row : NRow) : NRow :=
  if "SNOW" ∈ cols then mapCol "SNOW" (Option.map nConvSnow) row else row


/-- Line 100: the same for SNWD. -/
def nStageSnwd (cols : List String) (row : NRow) : NRow :=
  if "SNWD" ∈ cols then mapCol "SNWD" (Option.map nConvSnow) row else row


/-- Line 103: `fillna(value={'PRCP':0, 'SNOW':0, 'SNWD':0})`; a dict
`fillna` ignores columns the frame does not have, which `mapCol`
mirrors (it is the identity when the key is absent). -/
def nStageFill (row : NRow) : NRow :=
  mapCol "SNWD" fill0 (mapCol "SNOW" fill0 (mapCol "PRCP" fill0 row))


/-- Line 105: `if hasattr(data, 'SNOW'): data['SNPR'] = data.PRCP +
data.SNOW/10.` -/
def nStageSnpr (cols : List String) (row : NRow) : NRow :=
  if "SNOW" ∈ cols then
    setCol "SNPR" (snprVal ((row.lookup "PRCP").join) ((row.lookup "SNOW").join)) row
  else row


/-- The per-row effect of the conversion/scrub/fill/SNPR block of
`NOAAWeatherCore._raw_df_proc` (core.py lines 90–105), in statement
order. -/
def nRowProc (cols : List String) (row : NRow) : NRow :=
  nStageSnpr cols (nStageFill (nStageSnwd cols (nStageSnow cols (nStageTempPrcp row))))


/-- `NOAAWeatherCore._raw_df_proc` up to (and excluding) the merge into
`self.raw`: pivot, drop leap days, process every row.  The unguarded
`data.TMAX`, `data.TMIN` and `data.PRCP` accesses raise `AttributeError`
when the batch holds no record of that datatype, modelled as the error
branch. -/
def nRawDfProc (rs : List NObs) : Except String NTable :=
  if "TMAX" ∈ ncols rs ∧ "TMIN" ∈ ncols rs ∧ "PRCP" ∈ ncols rs then
    .ok ((nDropLeap (npivot rs)).map (fun r => (r.1, nRowProc (ncols rs) r.2)))
  else .error "AttributeError"


/-- The spec's scenario batch, literally: a TMAX record and a PRCP
record with a missing value, both on 2020-01-01. -/
def c4Batch : List NObs :=
  [⟨⟨2020, 1, 1⟩, "TMAX", some 100⟩, ⟨⟨2020, 1, 1⟩, "PRCP", none⟩]


/-- The scenario batch completed with the TMIN and SNOW records the code
needs (both with missing values, exercising exactly the fill policy). -/
def c4BatchFull : List NObs :=
  [⟨⟨2020, 1, 1⟩, "TMAX", some 100⟩, ⟨⟨2020, 1, 1⟩, "PRCP", none⟩,
   ⟨⟨2020, 1, 1⟩, "TMIN", none⟩, ⟨⟨2020, 1, 1⟩, "SNOW", none⟩]


/-- The single row the completed scenario batch normalizes to. -/
def c4Row : NRow :=
  nRowProc (ncols c4BatchFull)
    ((ncols c4BatchFull).map (fun c => (c, nvalueAt c4BatchFull ⟨2020, 1, 1⟩ c)))


/-! ## Implausible-temperature scrub (C6) -/
/-- A single-record pyghcnd batch whose TMAX converts to 140 °F. -/
def c6Batch : List PObs := [⟨⟨2020, 7, 1⟩, "TMAX", 600, "a,b,c,0700"⟩]


/-- A noaa batch with a 140 °F TMAX and the columns the code requires. -/
def c6NBatch : List NObs :=
  [⟨⟨2020, 7, 1⟩, "TMAX", some 600⟩, ⟨⟨2020, 7, 1⟩, "TMIN", some 100⟩,
   ⟨⟨2020, 7, 1⟩, "PRCP", none⟩]


/-- The row the hot-TMAX noaa batch normalizes to. -/
def c6NRow : NRow :=
  nRowProc (ncols c6NBatch)
    ((ncols c6NBatch).map (fun c => (c, nvalueAt c6NBatch ⟨2020, 7, 1⟩ c)))


/-! ## The provider request retry loop (C5)

`GHCND._api_request` (core.py lines 135–153).  The `while` loop raises
once `try_count` reaches `MAX_TRIES = 5`; a non-200 response increments
`try_count` and loops; a 200 response enters a `try` block that assigns
`json = req.json()` and, for a first-page data request with a non-empty
body, probes `json['metadata']['resultset']`.  Both failure modes of the
`try` land in `except: try_count += 1` — but the `return json` on line
151 sits *outside* the `try`, so it still executes: a parsed-but-
malformed body is returned at once (the increment is dead), and a body
that failed to parse leaves `json` unassigned, so `return json` raises
`UnboundLocalError` (unless a previous iteration assigned it, which no
looping path does). -/
/-- Abstract view of one HTTP response: its status code, whether its
body parses as JSON, whether the JSON equals `{}`, and whether
`json['metadata']['resultset']` exists.  A returned response stands for
the parsed `json` value itself. -/
structure Resp where
  status : ℕ
  parses : Bool
  isEmptyJson : Bool
  hasMeta : Bool
  deriving DecidableEq, Repr


/-- The exceptions the loop can surface. -/
inductive ApiErr
  | tooManyRequests
  | unboundLocal
  deriving DecidableEq, Repr


/-- The retry loop.  `checkMeta` is `req_type == 'data' and not offset`;
`resps` is the provider's response stream indexed by request number;
`jsonVar` is the current value of the local `json` (never reassigned on
a looping path).  Returns the outcome and the number of requests issued.
The source guard is `try_count == MAX_TRIES`; since `try_count` starts
at 0 and only steps by 1, `5 ≤ tryCount` is the same test. -/
def apiLoop (checkMeta : Bool) (resps : ℕ → Resp) (tryCount reqIdx : ℕ)
    (jsonVar : Option Resp) : Except ApiErr Resp × ℕ :=
  if 5 ≤ tryCount then (.error .tooManyRequests, reqIdx)
  else
    let r := resps reqIdx
    if r.status = 200 then
      if r.parses then
        -- the metadata probe may raise KeyError inside the `try` (when
        -- `checkMeta` and the body is non-empty without metadata); the
        -- handler only bumps try_count, and `return json` runs anyway
        (.ok r, reqIdx + 1)
      else
        -- `req.json()` raised: `json` keeps its previous (un)binding
        match jsonVar with
        | some j => (.ok j, reqIdx + 1)
        | none => (.error .unboundLocal, reqIdx + 1)
    else
      apiLoop checkMeta resps (tryCount + 1) (reqIdx + 1) jsonVar
  termination_by 5 - tryCount


/-- `GHCND._api_request` entry: `try_count = 0`, no `json` bound yet. -/
def apiRequest (checkMeta : Bool) (resps : ℕ → Resp) : Except ApiErr Resp × ℕ :=
  apiLoop checkMeta resps 0 0 none


/-- A well-formed 200 response whose metadata lacks the expected fields. -/
def malformedResp : Resp := ⟨200, true, false, false⟩


/-- A persistently failing (non-200) response. -/
def failResp : Resp := ⟨500, false, false, false⟩


/-! ## IEEE-style values and the regression of `_data_reduce` (C3)

The statistics code leans on NumPy/SciPy NaN and infinity propagation.
`FV` models a double as an exact rational, `+inf`, `-inf` or NaN, with
the IEEE propagation rules the claims depend on.  Negative zero is not
modelled (no claim distinguishes it), and finite results are exact
rationals rather than rounded doubles. -/
inductive FV
  | fin : ℚ → FV
  | pinf : FV
  | ninf : FV
  | nan : FV
  deriving DecidableEq, Repr


namespace FV

def neg : FV → FV
  | fin q => fin (-q)
  | pinf => ninf
  | ninf => pinf
  | nan => nan

def add : FV → FV → FV
  | nan, _ => nan
  | _, nan => nan
  | fin a, fin b => fin (a + b)
  | fin _, pinf => pinf
  | fin _, ninf => ninf
  | pinf, fin _ => pinf
  | ninf, fin _ => ninf
  | pinf, pinf => pinf
  | ninf, ninf => ninf
  | pinf, ninf => nan
  | ninf, pinf => nan

def sub (a b : FV) : FV := add a (neg b)

def mul : FV → FV → FV
  | nan, _ => nan
  | _, nan => nan
  | fin a, fin b => fin (a * b)
  | fin a, pinf => if a = 0 then nan else if 0 < a then pinf else ninf
  | fin a, ninf => if a = 0 then nan else if 0 < a then ninf else pinf
  | pinf, fin b => if b = 0 then nan else if 0 < b then pinf else ninf
  | ninf, fin b => if b = 0 then nan else if 0 < b then ninf else pinf
  | pinf, pinf => pinf
  | ninf, ninf => pinf
  | pinf, ninf => ninf
  | ninf, pinf => ninf

def div : FV → FV → FV
  | nan, _ => nan
  | _, nan => nan
  | fin a, fin b =>
      if b = 0 then (if a = 0 then nan else if 0 < a then pinf else ninf)
      else fin (a / b)
  | fin _, pinf => fin 0
  | fin _, ninf => fin 0
  | pinf, fin b => if 0 ≤ b then pinf else ninf
  | ninf, fin b => if 0 ≤ b then ninf else pinf
  | pinf, _ => nan
  | ninf, _ => nan

def abs : FV → FV
  | fin q => fin |q|
  | nan => nan
  | _ => pinf

/-- An infinite value (what C9 forbids in the derived columns). -/
def isInf : FV → Prop
  | pinf => True
  | ninf => True
  | _ => False

end FV


/-- `np.sqrt` on an `FV`, parameterized by the (unmodelled) finite
approximation `rsqrt`; only the NaN/sign structure matters to the
claims. -/
def sqrtF (rsqrt : ℚ → ℚ) : FV → FV
  | FV.nan => FV.nan
  | FV.ninf => FV.nan
  | FV.pinf => FV.pinf
  | FV.fin q => if q < 0 then FV.nan else FV.fin (rsqrt q)


/-- Mean of a list of rationals (`np.mean`). -/
def qmean (l : List ℚ) : ℚ := l.sum / l.length


/-- All x values identical (SciPy's degeneracy check `amax(x) == amin(x)`). -/
def allSameQ (l : List ℚ) : Prop := ∀ a ∈ l, ∀ b ∈ l, a = b


instance (l : List ℚ) : Decidable (allSameQ l) := by
  unfold allSameQ
  infer_instance


/-- `ssxm` of `scipy.stats.linregress`: the biased variance of x. -/
def ssxmOf (pts : List (ℚ × ℚ)) : ℚ :=
  (((pts.map Prod.fst).map (fun x => (x - qmean (pts.map Prod.fst)) ^ 2)).sum) / pts.length


/-- `ssym`: the biased variance of y. -/
def ssymOf (pts : List (ℚ × ℚ)) : ℚ :=
  (((pts.map Prod.snd).map (fun y => (y - qmean (pts.map Prod.snd)) ^ 2)).sum) / pts.length


/-- `ssxym`: the biased covariance of x and y. -/
def ssxymOf (pts : List (ℚ × ℚ)) : ℚ :=
  ((pts.map (fun p => (p.1 - qmean (pts.map Prod.fst)) * (p.2 - qmean (pts.map Prod.snd)))).sum)
    / pts.length


/-- `slope = ssxym / ssxm` (0/0 = NaN when all x coincide). -/
def slopeOf (pts : List (ℚ × ℚ)) : FV :=
  FV.div (.fin (ssxymOf pts)) (.fin (ssxmOf pts))


/-- `intercept = ymean - slope*xmean`. -/
def interceptOf (pts : List (ℚ × ℚ)) : FV :=
  FV.sub (.fin (qmean (pts.map Prod.snd))) (FV.mul (slopeOf pts) (.fin (qmean (pts.map Prod.fst))))


/-- `r**2`; SciPy sets `r = 0` when either variance vanishes, and the
exact value `ssxym^2/(ssxm*ssym)` never exceeds 1 (Cauchy–Schwarz), so
the float clipping branch has no exact-arithmetic counterpart. -/
def r2Of (pts : List (ℚ × ℚ)) : ℚ :=
  if ssxmOf pts = 0 ∨ ssymOf pts = 0 then 0 else (ssxymOf pts) ^ 2 / (ssxmOf pts * ssymOf pts)


/-- `slope_stderr = sqrt((1 - r**2) * ssym / ssxm / df)`. -/
def stderrOf (rsqrt : ℚ → ℚ) (pts : List (ℚ × ℚ)) : FV :=
  sqrtF rsqrt (FV.div (FV.div (FV.mul (.fin (1 - r2Of pts)) (.fin (ssymOf pts)))
    (.fin (ssxmOf pts))) (.fin ((pts.length : ℚ) - 2)))


/-- `intercept_stderr = slope_stderr * sqrt(1/n + xmean**2/ssxm)`. -/
def interceptStderrOf (rsqrt : ℚ → ℚ) (pts : List (ℚ × ℚ)) : FV :=
  FV.mul (stderrOf rsqrt pts) (sqrtF rsqrt (FV.add (.fin (1 / (pts.length : ℚ)))
    (FV.div (.fin ((qmean (pts.map Prod.fst)) ^ 2)) (.fin (ssxmOf pts)))))


/-- The regression result the code reads (`fit.slope`, `fit.intercept`,
`fit.stderr`, `fit.intercept_stderr`). -/
structure LinFit where
  slope : FV
  intercept : FV
  stderr : FV
  intercept_stderr : FV
  deriving DecidableEq, Repr


/-- `scipy.stats.linregress` on exact rationals: empty input and
identical-x input (with more than one point) raise; two points take the
special branch that sets both standard errors to `0.0`; otherwise the
documented formulas apply.  (External routine, modelled from its
published implementation; finite square roots are parameterized.) -/
def linregress (rsqrt : ℚ → ℚ) (pts : List (ℚ × ℚ)) : Except String LinFit :=
  if pts.length = 0 then .error "Inputs must not be empty."
  else if 1 < pts.length ∧ allSameQ (pts.map Prod.fst) then
    .error "Cannot calculate a linear regression if all x values are identical"
  else if pts.length = 2 then
    .ok ⟨slopeOf pts, interceptOf pts, .fin 0, .fin 0⟩
  else
    .ok ⟨slopeOf pts, interceptOf pts, stderrOf rsqrt pts, interceptStderrOf rsqrt pts⟩


/-- `sps.t.sf(t, df) * 2`, parameterized by the finite survival values
`g`; SciPy yields NaN for a non-positive `df` or a NaN statistic, 0 for
`t = +inf` and 1 for `t = -inf`. -/
def tsf2F (g : ℚ → ℤ → ℚ) (t : FV) (df : ℤ) : FV :=
  if df ≤ 0 then FV.nan
  else match t with
    | FV.nan => FV.nan
    | FV.pinf => FV.fin 0
    | FV.ninf => FV.fin 2
    | FV.fin q => FV.fin (g q df)


/-- The outputs `_data_reduce` stores for one of TMAX/TMIN in one
(month, day) group: `count`, `icept`, `slope`, `p_slope`. -/
structure RegOut where
  count : ℕ
  icept : FV
  slope : FV
  p_slope : FV
  deriving DecidableEq, Repr


/-- The regression portion of `GHCND._data_reduce` (core.py lines
253–266) for one group and one temperature column: drop missing values
(`mask = ~isna()`), count, `sps.linregress` on (yeardiff, value), then
`ps = sps.t.sf(ts, count-2)*2` with `ts[0] = |slope/stderr|`.  The
descriptive min/max/mean/std rows are not referenced by any claim and
are omitted; `ts[1]` is computed by the source but `ps[1]` is not
stored in this variant. -/
def dataReduceReg (rsqrt : ℚ → ℚ) (g : ℚ → ℤ → ℚ) (pairs : List (ℚ × Option ℚ)) :
    Except String RegOut :=
  match linregress rsqrt (pairs.filterMap (fun p => p.2.map (fun y => (p.1, y)))) with
  | .error e => .error e
  | .ok fit =>
      .ok ⟨(pairs.filterMap (fun p => p.2.map (fun y => (p.1, y)))).length,
        fit.intercept, fit.slope,
        tsf2F g (FV.abs (FV.div fit.slope fit.stderr))
          (((pairs.filterMap (fun p => p.2.map (fun y => (p.1, y)))).length : ℤ) - 2)⟩


/-- Concrete square-root / survival-function stand-ins for closed
evaluations (the claims under study never depend on their finite
values). -/
def rsqrt0 : ℚ → ℚ := fun _ => 0


/-- See `rsqrt0`. -/
def g0 : ℚ → ℤ → ℚ := fun _ _ => 0


/-! ## Derived significance columns (C9)

`GHCND._stats_df_proc` (core.py lines 230–239): for each of TMIN/TMAX,
`log_p = -np.log10(p_slope)` and the products with `slope` and
`slope.abs()` are appended.  There is no branch on `p_slope` anywhere in
the block. -/
/-- `np.log10` on an `FV`: NaN for NaN/negative input, `-inf` at zero,
`+inf` at `+inf`; finite positive values are parameterized by `lg`. -/
def log10F (lg : ℚ → ℚ) : FV → FV
  | FV.nan => FV.nan
  | FV.pinf => FV.pinf
  | FV.ninf => FV.nan
  | FV.fin q => if q < 0 then FV.nan else if q = 0 then FV.ninf else FV.fin (lg q)


/-- The three derived columns of one row and one temperature group:
`-log_p`, `-log_p*slope`, `-log_p*abs_slope` (core.py lines 235–239). -/
def statsDerived (lg : ℚ → ℚ) (slope p_slope : FV) : FV × FV × FV :=
  (FV.neg (log10F lg p_slope),
   FV.mul (FV.neg (log10F lg p_slope)) slope,
   FV.mul (FV.neg (log10F lg p_slope)) (FV.abs slope))


/-- Stand-in for the finite part of `log10` in closed evaluations. -/
def lg0 : ℚ → ℚ := fun _ => 0


/-! ## The quality-filter view and raw persistence (C10)

`GHCND._raw_df_filter` (core.py lines 197–217) derives `self.raw` from
`self._raw_full`: per datatype group, values whose quality flag is
non-empty are masked to NaN (pandas groupby splits copy their block, so
the write `vals[mask] = np.nan` lands in the group copy, not in
`_raw_full`), then `yeardiff` and `SNPR` columns are added to the view.
`ParquetStore.raw_df_save` (datastore.py lines 14–15) writes
`_raw_full`. -/
/-- The quality filter applied to one row of the wide table: a non-empty
`qflag` masks the value to missing; the other cells pass through. -/
def qualityFilterRow (row : PRow) : List (String × Option ℚ) :=
  row.map (fun p => (p.1, if p.2.qflag ≠ "" then none else p.2.value))


/-- `self.raw.PRCP + self.raw.SNOW*0.1` on one row (core.py line 217). -/
def snprPy (p s : Option ℚ) : Option ℚ :=
  match p, s with
  | some a, some b => some (a + b * (1/10))
  | _, _ => none


/-- The whole filtered view: masked values plus the `yeardiff` and
`SNPR` columns (core.py lines 210–217). -/
def rawFilter (startDate : ℤ) (t : PTable) : List (Date × List (String × Option ℚ)) :=
  t.map (fun r =>
    (r.1, qualityFilterRow r.2
      ++ [("yeardiff", some (((r.1.year : ℤ) - startDate : ℤ) : ℚ)),
          ("SNPR", snprPy (((qualityFilterRow r.2).lookup "PRCP").join)
            (((qualityFilterRow r.2).lookup "SNOW").join))]))


/-- The session state the filter touches: the persisted full table, the
derived filtered view, and the station start year. -/
structure GState where
  rawFull : PTable
  raw : Option (List (Date × List (String × Option ℚ)))
  startDate : ℤ


/-- `GHCND._raw_df_filter`: recompute `self.raw` from `self._raw_full`. -/
def rawDfFilter (s : GState) : GState :=
  { s with raw := some (rawFilter s.startDate s.rawFull) }


/-- `ParquetStore.raw_df_save`: the table actually persisted. -/
def rawDfSave (s : GState) : PTable := s.rawFull


/-- A one-row session state with a quality-flagged TMAX cell. -/
def c10Row : PRow := [("TMAX", ⟨some 10, "m", "Q", "s", none⟩)]


/-- See `c10Row`. -/
def c10State : GState := ⟨[(⟨2021, 1, 2⟩, c10Row)], none, 2000⟩


/-! ### Theorems -/

theorem mem_insertKeyed {α : Type} (k : α → ℕ) (x a : α) (l : List α) :
    a ∈ insertKeyed k x l ↔ a = x ∨ a ∈ l := by
  induction l with
  | nil => simp [insertKeyed]
  | cons y ys ih =>
      by_cases h : k x ≤ k y
      · simp [insertKeyed, h]
      · simp [insertKeyed, h, ih]
        tauto


theorem mem_sortKeyed {α : Type} (k : α → ℕ) (a : α) (l : List α) :
    a ∈ sortKeyed k l ↔ a ∈ l := by
  induction l with
  | nil => simp [sortKeyed]
  | cons y ys ih =>
      simp only [sortKeyed, List.foldr_cons] at *
      rw [mem_insertKeyed, ih, List.mem_cons]


/-- C1 -- For an existing series `old` and a non-empty incoming table
`new` whose first date is `d0`, the merge step produces exactly the
old rows dated before `d0` followed by all of `new`: every result row
dated ≥ `d0` comes from `new`, every `new` row is present, every old row
dated < `d0` is retained unchanged, and (for a sorted duplicate-free
incoming table and duplicate-free existing table) no date is duplicated. -/
theorem merge_replaces_superseded_range (old new : PTable) (d0 : Date) (r0 : PRow)
    (hhead : new.head? = some (d0, r0))
    (hsort : new.Pairwise (fun a b => a.1.key < b.1.key))
    (hold : (old.map (fun r => r.1.key)).Nodup) :
    mergeStep old new = old.filter (fun r => r.1.key < d0.key) ++ new ∧
    (∀ p ∈ mergeStep old new, d0.key ≤ p.1.key → p ∈ new) ∧
    (∀ p ∈ new, p ∈ mergeStep old new) ∧
    (∀ p ∈ old, p.1.key < d0.key → p ∈ mergeStep old new) ∧
    ((mergeStep old new).map (fun r => r.1.key)).Nodup := by
  have hmerge : mergeStep old new = old.filter (fun r => r.1.key < d0.key) ++ new := by
    unfold mergeStep
    rw [hhead]
  refine ⟨hmerge, ?_, ?_, ?_, ?_⟩
  · intro p hp hge
    rw [hmerge, List.mem_append] at hp
    rcases hp with hp | hp
    · exact absurd (List.of_mem_filter hp) (by simpa using hge)
    · exact hp
  · intro p hp
    rw [hmerge, List.mem_append]
    exact Or.inr hp
  · intro p hp hlt
    rw [hmerge, List.mem_append]
    exact Or.inl (List.mem_filter.mpr ⟨hp, by simpa using hlt⟩)
  · rw [hmerge]
    have hnewmin : ∀ p ∈ new, d0.key ≤ p.1.key := by
      intro p hp
      rcases new with _ | ⟨a, tl⟩
      · simp at hhead
      · have ha : a = (d0, r0) := by simpa using hhead
        subst ha
        rcases List.mem_cons.mp hp with h | h
        · subst h; exact le_refl _
        · exact le_of_lt ((List.pairwise_cons.mp hsort).1 p h)
    have hnewnodup : (new.map (fun r => r.1.key)).Nodup := by
      have hp : (new.map (fun r => r.1.key)).Pairwise (· < ·) := by
        rw [List.pairwise_map]
        exact hsort
      exact hp.imp ne_of_lt
    have holdnodup : ((old.filter (fun r => r.1.key < d0.key)).map (fun r => r.1.key)).Nodup :=
      hold.sublist ((List.filter_sublist old).map (fun r => r.1.key))
    rw [List.map_append, List.nodup_append]
    refine ⟨holdnodup, hnewnodup, ?_⟩
    intro k hk1 hk2
    rcases List.mem_map.mp hk1 with ⟨p, hp, hpk⟩
    rcases List.mem_map.mp hk2 with ⟨q, hq, hqk⟩
    have h1 : p.1.key < d0.key := by simpa using List.of_mem_filter hp
    have h2 : d0.key ≤ q.1.key := hnewmin q hq
    omega


/-- Witness for C1 at the spec's own example shape: an existing series
ending 2023-06-30 merged with a batch starting 2023-01-01. -/
theorem merge_replaces_superseded_range_witness :
    c1New.head? = some (⟨2023, 1, 1⟩, ([] : PRow)) ∧
    c1New.Pairwise (fun a b => a.1.key < b.1.key) ∧
    (c1Old.map (fun r => r.1.key)).Nodup ∧
    (mergeStep c1Old c1New
        = c1Old.filter (fun r => r.1.key < (Date.mk 2023 1 1).key) ++ c1New ∧
      (∀ p ∈ mergeStep c1Old c1New, (Date.mk 2023 1 1).key ≤ p.1.key → p ∈ c1New) ∧
      (∀ p ∈ c1New, p ∈ mergeStep c1Old c1New) ∧
      (∀ p ∈ c1Old, p.1.key < (Date.mk 2023 1 1).key → p ∈ mergeStep c1Old c1New) ∧
      ((mergeStep c1Old c1New).map (fun r => r.1.key)).Nodup) :=
  ⟨rfl, by decide, by decide,
    merge_replaces_superseded_range c1Old c1New ⟨2023, 1, 1⟩ [] rfl (by decide) (by decide)⟩


theorem rawNew_noLeap (results : List PObs) : NoLeap (rawNew results) := by
  intro p hp hleap
  rcases List.mem_map.mp hp with ⟨d, hd, hdp⟩
  have hdate : p.1 ∈ (dropLeap results).map PObs.date := by
    have : d ∈ pivotDates (dropLeap results) := hd
    rw [pivotDates, mem_sortKeyed, List.mem_dedup] at this
    subst hdp
    exact this
  rcases List.mem_map.mp hdate with ⟨o, ho, hod⟩
  have := List.of_mem_filter ho
  rw [hod] at this
  simp [hleap.1, hleap.2] at this


theorem mergeStep_noLeap {old new : PTable} (h1 : NoLeap old) (h2 : NoLeap new) :
    NoLeap (mergeStep old new) := by
  intro p hp
  unfold mergeStep at hp
  cases hh : new.head? with
  | some h =>
      rw [hh] at hp
      rcases List.mem_append.mp hp with hp | hp
      · exact h1 p (List.mem_of_mem_filter hp)
      · exact h2 p hp
  | none =>
      rw [hh] at hp
      exact h1 p hp


/-- C7 -- No February 29 row ever appears: every normalized batch is
leap-day-free (the filter precedes the pivot), and every reachable
state of the persisted historical series is leap-day-free. -/
theorem no_feb29_in_normalized_or_series :
    (∀ results : List PObs, NoLeap (rawNew results)) ∧
    (∀ s, Reachable s → ∀ t, s = some t → NoLeap t) := by
  refine ⟨rawNew_noLeap, ?_⟩
  intro s hs
  induction hs with
  | init => intro t ht; cases ht
  | step s results _ ih =>
      intro t ht
      unfold updateTable at ht
      by_cases hr : results = []
      · rw [if_pos hr] at ht
        exact ih t ht
      · rw [if_neg hr] at ht
        cases s with
        | some t0 =>
            have ht' : mergeStep t0 (rawNew results) = t := by
              simpa using ht
            rw [← ht']
            exact mergeStep_noLeap (ih t0 rfl) (rawNew_noLeap results)
        | none =>
            have ht' : rawNew results = t := by simpa using ht
            rw [← ht']
            exact rawNew_noLeap results


theorem c7_state_eq : updateTable none c7Batch = some (rawNew c7Batch) := by
  simp [updateTable, c7Batch]


/-- Witness for C7: the state reached by one update on a batch holding a
Feb 29 record is leap-day-free. -/
theorem no_feb29_witness :
    Reachable (some (rawNew c7Batch)) ∧ NoLeap (rawNew c7Batch) := by
  constructor
  · have h := Reachable.step none c7Batch Reachable.init
    rwa [c7_state_eq] at h
  · exact (no_feb29_in_normalized_or_series).2 (some (rawNew c7Batch))
      (c7_state_eq ▸ Reachable.step none c7Batch Reachable.init) (rawNew c7Batch) rfl


/-- C8 -- Unit conversion is the spec's exact arithmetic: raw TMAX 250
converts to exactly 77 °F, and in both variants every datatype's
conversion coincides with the spec's formula for every raw value. -/
theorem unit_conversion_exact :
    convertPyg "TMAX" 250 = 77 ∧
    (∀ v : ℚ, convertPyg "TMAX" v = specTempF v) ∧
    (∀ v : ℚ, convertPyg "TMIN" v = specTempF v) ∧
    (∀ v : ℚ, convertPyg "PRCP" v = specPrcpInch v) ∧
    (∀ v : ℚ, convertPyg "SNOW" v = specSnowInch v) ∧
    (∀ v : ℚ, convertPyg "SNWD" v = specSnowInch v) ∧
    (∀ v : ℚ, nConvTemp v = specTempF v) ∧
    (∀ v : ℚ, nConvPrcp v = specPrcpInch v) ∧
    (∀ v : ℚ, nConvSnow v = specSnowInch v) := by
  refine ⟨?_, ?_, ?_, ?_, ?_, ?_, ?_, ?_, ?_⟩
  · norm_num [convertPyg]
  all_goals intro v
  all_goals simp [convertPyg, specTempF, specPrcpInch, specSnowInch,
    nConvTemp, nConvPrcp, nConvSnow]


theorem fetchLoop_closed_form (f : ℕ → List PObs) :
    ∀ n b acc, fetchLoop f b (b + n) acc
      = (acc ++ (List.range' b n).flatMap f, List.range' b n) := by
  intro n
  induction n with
  | zero =>
      intro b acc
      rw [fetchLoop]
      simp
  | succ m ih =>
      intro b acc
      rw [fetchLoop]
      have hlt : b < b + (m + 1) := by omega
      rw [if_pos hlt]
      have hb : b + (m + 1) = (b + 1) + m := by omega
      rw [hb, ih (b + 1) (acc ++ f b)]
      simp [List.range'_succ]


/-- C2 -- Resume correctness: if the checkpoint left behind after `k`
completed years of an uninterrupted run is present, the rerun uses its
year `Y = b0 + k` and accumulator rather than the freshly derived start
year: it requests exactly the years of `[Y, e)` (so no year `< Y`), and
its final table equals that of a run that was never interrupted, for
every remote dataset, derived start year, and prior table state. -/
theorem checkpoint_resume_correct (f : ℕ → List PObs) (b0 e k derivedBegin : ℕ)
    (old : Option PTable) (hk : b0 + k ≤ e) :
    updateData f derivedBegin e (some (ckptAfter f b0 k)) old
      = updateData f b0 e none old ∧
    (fetchLoop f (b0 + k) e (ckptAfter f b0 k).2).2 = List.range' (b0 + k) (e - (b0 + k)) ∧
    (∀ y ∈ (fetchLoop f (b0 + k) e (ckptAfter f b0 k).2).2, b0 + k ≤ y) := by
  have he1 : e = (b0 + k) + (e - (b0 + k)) := by omega
  have he0 : e = b0 + (e - b0) := by omega
  have hres : (fetchLoop f (b0 + k) e (fetchLoop f b0 (b0 + k) ([] : List PObs)).1).1
      = (fetchLoop f b0 e ([] : List PObs)).1 := by
    conv_lhs => rw [he1]
    conv_rhs => rw [he0]
    rw [fetchLoop_closed_form f (e - (b0 + k)) (b0 + k) _,
        fetchLoop_closed_form f k b0 [], fetchLoop_closed_form f (e - b0) b0 []]
    simp only [List.nil_append]
    rw [← List.flatMap_append]
    have : List.range' b0 k ++ List.range' (b0 + k) (e - (b0 + k)) = List.range' b0 (e - b0) := by
      rw [List.range'_append_1]
      congr 1
      omega
    rw [this]
  refine ⟨?_, ?_, ?_⟩
  · unfold updateData
    simp only [ckptAfter]
    rw [hres]
  · conv_lhs => rw [he1]
    rw [fetchLoop_closed_form f (e - (b0 + k)) (b0 + k) _]
  · intro y hy
    conv_lhs at hy => rw [he1]
    rw [fetchLoop_closed_form f (e - (b0 + k)) (b0 + k) _] at hy
    rcases List.mem_range'.mp hy with ⟨i, _, hisum⟩
    omega


/-- Witness for C2 at a concrete dataset: interrupted after one year of
a 2000–2002 run, the resumed run matches the uninterrupted one and only
requests years ≥ 2001. -/
theorem checkpoint_resume_correct_witness :
    2000 + 1 ≤ 2003 ∧
    (updateData c2Remote 1990 2003 (some (ckptAfter c2Remote 2000 1)) none
        = updateData c2Remote 2000 2003 none none ∧
      (fetchLoop c2Remote (2000 + 1) 2003 (ckptAfter c2Remote 2000 1).2).2
        = List.range' (2000 + 1) (2003 - (2000 + 1)) ∧
      (∀ y ∈ (fetchLoop c2Remote (2000 + 1) 2003 (ckptAfter c2Remote 2000 1).2).2,
        2000 + 1 ≤ y)) :=
  ⟨by norm_num,
    checkpoint_resume_correct c2Remote 2000 2003 1 1990 none (by norm_num)⟩


theorem lookup_mapCol_self (g : Option ℚ → Option ℚ) (c : String) (row : NRow) :
    (mapCol c g row).lookup c = (row.lookup c).map g := by
  induction row with
  | nil => rfl
  | cons p rest ih =>
      rcases p with ⟨k, v⟩
      simp only [mapCol, List.map_cons] at *
      by_cases h : k = c
      · rw [if_pos h]
        subst h
        simp [List.lookup]
      · rw [if_neg h]
        have h2 : (c == k) = false := by simp [Ne.symm h]
        simp only [List.lookup, h2]
        exact ih


theorem lookup_mapCol_ne (g : Option ℚ → Option ℚ) (c c' : String) (hne : c ≠ c')
    (row : NRow) : (mapCol c' g row).lookup c = row.lookup c := by
  induction row with
  | nil => rfl
  | cons p rest ih =>
      rcases p with ⟨k, v⟩
      simp only [mapCol, List.map_cons] at *
      by_cases h : k = c'
      · rw [if_pos h]
        have h2 : (c == k) = false := by
          subst h
          simp [hne]
        simp only [List.lookup, h2]
        exact ih
      · rw [if_neg h]
        by_cases h3 : c = k
        · subst h3
          simp [List.lookup]
        · have h4 : (c == k) = false := by simp [h3]
          simp only [List.lookup, h4]
          exact ih


theorem lookup_append_of_some {l1 l2 : NRow} {c : String} {w : Option ℚ}
    (hw : l1.lookup c = some w) : (l1 ++ l2).lookup c = some w := by
  induction l1 with
  | nil => cases hw
  | cons p rest ih =>
      rcases p with ⟨k, v⟩
      by_cases h : c = k
      · subst h
        simpa [List.lookup] using hw
      · have h2 : (c == k) = false := by simp [h]
        simp only [List.cons_append, List.lookup, h2] at *
        exact ih hw


theorem lookup_map_uniform (v : String → Option ℚ) (cols : List String) (c : String)
    (hc : c ∈ cols) : (cols.map (fun x => (x, v x))).lookup c = some (v c) := by
  induction cols with
  | nil => cases hc
  | cons k rest ih =>
      by_cases h : c = k
      · subst h
        simp [List.lookup]
      · have h2 : (c == k) = false := by simp [h]
        rcases List.mem_cons.mp hc with h3 | h3
        · exact absurd h3 h
        · simp [List.lookup, h2, ih h3]


theorem lookup_append_of_none {l1 : NRow} {c : String} (l2 : NRow)
    (hn : l1.lookup c = none) : (l1 ++ l2).lookup c = l2.lookup c := by
  induction l1 with
  | nil => rfl
  | cons p rest ih =>
      rcases p with ⟨k, v⟩
      by_cases h : c = k
      · subst h
        simp [List.lookup] at hn
      · have h2 : (c == k) = false := by simp [h]
        simp only [List.cons_append, List.lookup, h2] at *
        exact ih hn


theorem lookup_setCol_self (c : String) (v : Option ℚ) (row : NRow) :
    (setCol c v row).lookup c = some v := by
  unfold setCol
  by_cases h : (row.lookup c).isSome
  · rw [if_pos h, lookup_mapCol_self]
    rcases Option.isSome_iff_exists.mp h with ⟨w, hw⟩
    rw [hw]
    rfl
  · rw [if_neg h]
    rw [lookup_append_of_none _ (Option.not_isSome_iff_eq_none.mp h)]
    simp [List.lookup]


theorem lookup_setCol_ne (c c' : String) (hne : c ≠ c') (v : Option ℚ) (row : NRow) :
    (setCol c' v row).lookup c = row.lookup c := by
  unfold setCol
  by_cases h : (row.lookup c').isSome
  · rw [if_pos h, lookup_mapCol_ne _ _ _ hne]
  · rw [if_neg h]
    cases hc : row.lookup c with
    | some w => exact lookup_append_of_some hc
    | none =>
        rw [lookup_append_of_none _ hc]
        have h2 : (c == c') = false := by simp [hne]
        simp [List.lookup, h2]


theorem nRowProc_lookup_prcp (cols : List String) (row : NRow) (w : Option ℚ)
    (hw : row.lookup "PRCP" = some w) :
    (nRowProc cols row).lookup "PRCP" = some (fill0 (w.map nConvPrcp)) := by
  unfold nRowProc nStageSnpr nStageFill nStageSnwd nStageSnow nStageTempPrcp
  by_cases hs : "SNOW" ∈ cols <;> by_cases hd : "SNWD" ∈ cols <;>
    simp [hs, hd, lookup_mapCol_self, lookup_mapCol_ne, lookup_setCol_ne, hw]


theorem nRowProc_lookup_snow (cols : List String) (row : NRow) (w : Option ℚ)
    (hs : "SNOW" ∈ cols) (hw : row.lookup "SNOW" = some w) :
    (nRowProc cols row).lookup "SNOW" = some (fill0 (w.map nConvSnow)) := by
  unfold nRowProc nStageSnpr nStageFill nStageSnwd nStageSnow nStageTempPrcp
  by_cases hd : "SNWD" ∈ cols <;>
    simp [hs, hd, lookup_mapCol_self, lookup_mapCol_ne, lookup_setCol_ne, hw]


theorem nRowProc_lookup_snwd (cols : List String) (row : NRow) (w : Option ℚ)
    (hd : "SNWD" ∈ cols) (hw : row.lookup "SNWD" = some w) :
    (nRowProc cols row).lookup "SNWD" = some (fill0 (w.map nConvSnow)) := by
  unfold nRowProc nStageSnpr nStageFill nStageSnwd nStageSnow nStageTempPrcp
  by_cases hs : "SNOW" ∈ cols <;>
    simp [hs, hd, lookup_mapCol_self, lookup_mapCol_ne, lookup_setCol_ne, hw]


theorem nRowProc_lookup_tmax (cols : List String) (row : NRow) (w : Option ℚ)
    (hw : row.lookup "TMAX" = some w) :
    (nRowProc cols row).lookup "TMAX" = some (scrub130 (w.map nConvTemp)) := by
  unfold nRowProc nStageSnpr nStageFill nStageSnwd nStageSnow nStageTempPrcp
  by_cases hs : "SNOW" ∈ cols <;> by_cases hd : "SNWD" ∈ cols <;>
    simp [hs, hd, lookup_mapCol_self, lookup_mapCol_ne, lookup_setCol_ne, hw]


theorem nRowProc_lookup_tmin (cols : List String) (row : NRow) (w : Option ℚ)
    (hw : row.lookup "TMIN" = some w) :
    (nRowProc cols row).lookup "TMIN" = some (scrub130 (w.map nConvTemp)) := by
  unfold nRowProc nStageSnpr nStageFill nStageSnwd nStageSnow nStageTempPrcp
  by_cases hs : "SNOW" ∈ cols <;> by_cases hd : "SNWD" ∈ cols <;>
    simp [hs, hd, lookup_mapCol_self, lookup_mapCol_ne, lookup_setCol_ne, hw]


theorem nRowProc_lookup_snpr (cols : List String) (row : NRow) (wp ws : Option ℚ)
    (hs : "SNOW" ∈ cols) (hp : row.lookup "PRCP" = some wp)
    (hsw : row.lookup "SNOW" = some ws) :
    (nRowProc cols row).lookup "SNPR"
      = some (snprVal (fill0 (wp.map nConvPrcp)) (fill0 (ws.map nConvSnow))) := by
  unfold nRowProc nStageSnpr nStageFill nStageSnwd nStageSnow nStageTempPrcp
  by_cases hd : "SNWD" ∈ cols <;>
    simp [hs, hd, lookup_mapCol_self, lookup_mapCol_ne, lookup_setCol_self, hp, hsw]


/-- Shape of a successful `_raw_df_proc` run: the batch held TMAX, TMIN
and PRCP records, and every output row is `nRowProc` applied to the
uniform pivot row of its date. -/
theorem nRawDfProc_row_shape (rs : List NObs) (t : NTable)
    (hok : nRawDfProc rs = .ok t) :
    ("TMAX" ∈ ncols rs ∧ "TMIN" ∈ ncols rs ∧ "PRCP" ∈ ncols rs) ∧
    ∀ p ∈ t, p.2 = nRowProc (ncols rs) ((ncols rs).map (fun c => (c, nvalueAt rs p.1 c))) := by
  unfold nRawDfProc at hok
  by_cases hcols : "TMAX" ∈ ncols rs ∧ "TMIN" ∈ ncols rs ∧ "PRCP" ∈ ncols rs
  · rw [if_pos hcols] at hok
    refine ⟨hcols, ?_⟩
    have ht : (nDropLeap (npivot rs)).map (fun r => (r.1, nRowProc (ncols rs) r.2)) = t := by
      simpa using hok
    intro p hp
    rw [← ht] at hp
    rcases List.mem_map.mp hp with ⟨r, hr, hrp⟩
    rcases List.mem_map.mp (List.mem_of_mem_filter hr) with ⟨d, _, hdr⟩
    rw [← hrp, ← hdr]
  · rw [if_neg hcols] at hok
    cases hok


/-- Counterexample to C4 as stated: the claimed two-record batch does
not normalize to a row at all — the unguarded `data.TMIN` access raises
`AttributeError` because the batch holds no TMIN record (and `SNPR`
could not appear either, since it is only derived when a SNOW column
exists). -/
theorem fill_policy_scenario_fails : nRawDfProc c4Batch = .error "AttributeError" := by
  rfl


/-- C4 (amended) -- In the `noaa_temps` normalizer, for every batch it
accepts, every present PRCP/SNOW/SNWD column ends zero-filled (its cell
is a number, never missing) while a missing TMAX or TMIN source value
stays missing; the spec's scenario, which as stated raises, normalizes —
once the batch also carries the TMIN and SNOW records the code requires
— to TMAX = 50 °F, PRCP = 0, SNPR = 0 (and TMIN still missing). -/
theorem fill_policy_zero_fill :
    (∀ rs : List NObs, ∀ t, nRawDfProc rs = .ok t → ∀ p ∈ t,
      (∀ c ∈ ncols rs, (c = "PRCP" ∨ c = "SNOW" ∨ c = "SNWD") →
        ∃ q : ℚ, p.2.lookup c = some (some q)) ∧
      (nvalueAt rs p.1 "TMAX" = none → p.2.lookup "TMAX" = some none) ∧
      (nvalueAt rs p.1 "TMIN" = none → p.2.lookup "TMIN" = some none)) ∧
    (nRawDfProc c4BatchFull = .ok [(⟨2020, 1, 1⟩, c4Row)] ∧
      c4Row.lookup "TMAX" = some (some 50) ∧
      c4Row.lookup "PRCP" = some (some 0) ∧
      c4Row.lookup "TMIN" = some none ∧
      c4Row.lookup "SNOW" = some (some 0) ∧
      c4Row.lookup "SNPR" = some (some 0)) := by
  have hmemP : "PRCP" ∈ ncols c4BatchFull := by decide
  have hmemS : "SNOW" ∈ ncols c4BatchFull := by decide
  have hmemT : "TMAX" ∈ ncols c4BatchFull := by decide
  have hmemI : "TMIN" ∈ ncols c4BatchFull := by decide
  constructor
  · intro rs t hok p hp
    obtain ⟨hcols, hshape⟩ := nRawDfProc_row_shape rs t hok
    have hrow := hshape p hp
    refine ⟨?_, ?_, ?_⟩
    · intro c hc hcase
      rcases hcase with hc1 | hc1 | hc1 <;> subst hc1
      · rw [hrow, nRowProc_lookup_prcp _ _ _ (lookup_map_uniform _ _ _ hc)]
        exact ⟨_, rfl⟩
      · rw [hrow, nRowProc_lookup_snow _ _ _ hc (lookup_map_uniform _ _ _ hc)]
        exact ⟨_, rfl⟩
      · rw [hrow, nRowProc_lookup_snwd _ _ _ hc (lookup_map_uniform _ _ _ hc)]
        exact ⟨_, rfl⟩
    · intro hnone
      rw [hrow, nRowProc_lookup_tmax _ _ _ (lookup_map_uniform _ _ _ hcols.1), hnone]
      rfl
    · intro hnone
      rw [hrow, nRowProc_lookup_tmin _ _ _ (lookup_map_uniform _ _ _ hcols.2.1), hnone]
      rfl
  refine ⟨rfl, ?_, ?_, ?_, ?_, ?_⟩
  · rw [c4Row, nRowProc_lookup_tmax _ _ _ (lookup_map_uniform _ _ _ hmemT)]
    have hv : nvalueAt c4BatchFull ⟨2020, 1, 1⟩ "TMAX" = some 100 := rfl
    rw [hv]
    norm_num [scrub130, nConvTemp]
  · rw [c4Row, nRowProc_lookup_prcp _ _ _ (lookup_map_uniform _ _ _ hmemP)]
    have hv : nvalueAt c4BatchFull ⟨2020, 1, 1⟩ "PRCP" = none := rfl
    rw [hv]
    rfl
  · rw [c4Row, nRowProc_lookup_tmin _ _ _ (lookup_map_uniform _ _ _ hmemI)]
    have hv : nvalueAt c4BatchFull ⟨2020, 1, 1⟩ "TMIN" = none := rfl
    rw [hv]
    rfl
  · rw [c4Row, nRowProc_lookup_snow _ _ _ hmemS (lookup_map_uniform _ _ _ hmemS)]
    have hv : nvalueAt c4BatchFull ⟨2020, 1, 1⟩ "SNOW" = none := rfl
    rw [hv]
    rfl
  · rw [c4Row, nRowProc_lookup_snpr _ _ _ _ hmemS
      (lookup_map_uniform _ _ _ hmemP) (lookup_map_uniform _ _ _ hmemS)]
    have hp : nvalueAt c4BatchFull ⟨2020, 1, 1⟩ "PRCP" = none := rfl
    have hs : nvalueAt c4BatchFull ⟨2020, 1, 1⟩ "SNOW" = none := rfl
    rw [hp, hs]
    norm_num [snprVal, fill0]


/-- Witness for the amended C4: the general fill statement applied to the
concrete completed scenario batch. -/
theorem fill_policy_zero_fill_witness :
    nRawDfProc c4BatchFull = .ok [(⟨2020, 1, 1⟩, c4Row)] ∧
    (⟨2020, 1, 1⟩, c4Row) ∈ [((⟨2020, 1, 1⟩ : Date), c4Row)] ∧
    "PRCP" ∈ ncols c4BatchFull ∧
    (∃ q : ℚ, c4Row.lookup "PRCP" = some (some q)) := by
  refine ⟨(fill_policy_zero_fill).2.1, List.mem_singleton.mpr rfl, by decide, ?_⟩
  have h := (fill_policy_zero_fill).1 c4BatchFull [(⟨2020, 1, 1⟩, c4Row)]
    (fill_policy_zero_fill).2.1 (⟨2020, 1, 1⟩, c4Row) (List.mem_singleton.mpr rfl)
  exact h.1 "PRCP" (by decide) (Or.inl rfl)


/-- Counterexample to C6 as stated: the pyghcnd normalizer performs no
implausible-value scrub, so a raw TMAX of 600 tenths-°C (140 °F > 130 °F)
is retained as a present value in the normalized table. -/
theorem scrub_absent_in_pyghcnd :
    rawNew c6Batch
      = [(⟨2020, 7, 1⟩, [("TMAX", Cell.ofObs ⟨⟨2020, 7, 1⟩, "TMAX", 600, "a,b,c,0700"⟩)])] ∧
    (Cell.ofObs ⟨⟨2020, 7, 1⟩, "TMAX", 600, "a,b,c,0700"⟩).value = some 140 ∧
    (130 : ℚ) < 140 := by
  refine ⟨rfl, ?_, by norm_num⟩
  show some (convertPyg "TMAX" 600) = some 140
  norm_num [convertPyg]


/-- C6 (amended) -- The `noaa_temps` normalizer scrubs: for every batch
it accepts and every output row, a TMAX (or TMIN) source value whose
converted temperature exceeds 130 °F becomes missing, and one at or
below 130 °F is kept as the converted value.  (The pyghcnd normalizer
applies no such scrub — see the counterexample.) -/
theorem implausible_temp_scrubbed_noaa :
    ∀ rs : List NObs, ∀ t, nRawDfProc rs = .ok t → ∀ p ∈ t, ∀ v : ℚ,
      (nvalueAt rs p.1 "TMAX" = some v → 130 < nConvTemp v →
        p.2.lookup "TMAX" = some none) ∧
      (nvalueAt rs p.1 "TMAX" = some v → ¬ 130 < nConvTemp v →
        p.2.lookup "TMAX" = some (some (nConvTemp v))) ∧
      (nvalueAt rs p.1 "TMIN" = some v → 130 < nConvTemp v →
        p.2.lookup "TMIN" = some none) ∧
      (nvalueAt rs p.1 "TMIN" = some v → ¬ 130 < nConvTemp v →
        p.2.lookup "TMIN" = some (some (nConvTemp v))) := by
  intro rs t hok p hp v
  obtain ⟨hcols, hshape⟩ := nRawDfProc_row_shape rs t hok
  have hrow := hshape p hp
  refine ⟨?_, ?_, ?_, ?_⟩
  · intro hv hhot
    rw [hrow, nRowProc_lookup_tmax _ _ _ (lookup_map_uniform _ _ _ hcols.1), hv]
    simp [scrub130, hhot]
  · intro hv hcool
    rw [hrow, nRowProc_lookup_tmax _ _ _ (lookup_map_uniform _ _ _ hcols.1), hv]
    simp [scrub130, hcool]
  · intro hv hhot
    rw [hrow, nRowProc_lookup_tmin _ _ _ (lookup_map_uniform _ _ _ hcols.2.1), hv]
    simp [scrub130, hhot]
  · intro hv hcool
    rw [hrow, nRowProc_lookup_tmin _ _ _ (lookup_map_uniform _ _ _ hcols.2.1), hv]
    simp [scrub130, hcool]


/-- Witness for the amended C6: a 600 tenths-°C TMAX (140 °F) is
scrubbed to missing by the noaa normalizer. -/
theorem implausible_temp_scrubbed_noaa_witness :
    nRawDfProc c6NBatch = .ok [(⟨2020, 7, 1⟩, c6NRow)] ∧
    nvalueAt c6NBatch ⟨2020, 7, 1⟩ "TMAX" = some 600 ∧
    (130 : ℚ) < nConvTemp 600 ∧
    c6NRow.lookup "TMAX" = some none := by
  refine ⟨rfl, rfl, by norm_num [nConvTemp], ?_⟩
  have h := implausible_temp_scrubbed_noaa c6NBatch [(⟨2020, 7, 1⟩, c6NRow)] rfl
    (⟨2020, 7, 1⟩, c6NRow) (List.mem_singleton.mpr rfl) 600
  exact h.1 rfl (by norm_num [nConvTemp])


/-- C5 -- Bounded retry holds for non-200 responses: five requests are
issued and the sixth loop check raises the too-many-requests error.  But
a 200 response with missing metadata fields is returned immediately on
the very first request instead of triggering a retry: the `except`
handler increments the retry counter, yet the mis-indented `return json`
executes regardless, contradicting the documented retry-on-malformed
behaviour. -/
theorem api_request_malformed_returned_not_retried :
    apiRequest true (fun _ => failResp) = (.error .tooManyRequests, 5) ∧
    apiRequest true (fun _ => malformedResp) = (.ok malformedResp, 1) ∧
    malformedResp.status = 200 ∧ malformedResp.parses = true ∧
    malformedResp.isEmptyJson = false ∧ malformedResp.hasMeta = false := by
  refine ⟨?_, ?_, rfl, rfl, rfl, rfl⟩
  · simp [apiRequest, apiLoop, failResp]
  · simp [apiRequest, apiLoop, malformedResp]


theorem ssxm_single (x y : ℚ) : ssxmOf [(x, y)] = 0 := by
  norm_num [ssxmOf, qmean]


theorem ssym_single (x y : ℚ) : ssymOf [(x, y)] = 0 := by
  norm_num [ssymOf, qmean]


theorem ssxym_single (x y : ℚ) : ssxymOf [(x, y)] = 0 := by
  norm_num [ssxymOf, qmean]


theorem ssxm_two (x1 y1 x2 y2 : ℚ) :
    ssxmOf [(x1, y1), (x2, y2)] = (x1 - x2) ^ 2 / 4 := by
  simp only [ssxmOf, qmean, List.map_cons, List.map_nil, List.sum_cons, List.sum_nil,
    List.length_cons, List.length_nil]
  push_cast
  ring


theorem ssxm_two_ne (x1 y1 x2 y2 : ℚ) (hne : x1 ≠ x2) :
    ssxmOf [(x1, y1), (x2, y2)] ≠ 0 := by
  rw [ssxm_two]
  intro h
  apply hne
  have h2 : (x1 - x2) ^ 2 = 0 := by
    field_simp at h
    simpa using h
  have h3 : x1 - x2 = 0 := by
    exact pow_eq_zero_iff (by norm_num) |>.mp h2
  linarith


/-- The degenerate single-point regression: every output the code stores
is NaN and no exception is raised. -/
theorem dataReduceReg_single (rsqrt : ℚ → ℚ) (g : ℚ → ℤ → ℚ)
    (pairs : List (ℚ × Option ℚ)) (x y : ℚ)
    (hmask : pairs.filterMap (fun p => p.2.map (fun q => (p.1, q))) = [(x, y)]) :
    dataReduceReg rsqrt g pairs = .ok ⟨1, FV.nan, FV.nan, FV.nan⟩ := by
  unfold dataReduceReg
  rw [hmask]
  simp [linregress, slopeOf, interceptOf, stderrOf, interceptStderrOf, r2Of,
    ssxm_single, ssym_single, ssxym_single, FV.div, FV.mul, FV.sub, FV.add, FV.neg,
    FV.abs, sqrtF, tsf2F]


/-- The two-point regression: the special-cased zero standard error makes
the p-value NaN, but the slope and intercept are finite values. -/
theorem dataReduceReg_two (rsqrt : ℚ → ℚ) (g : ℚ → ℤ → ℚ)
    (pairs : List (ℚ × Option ℚ)) (x1 y1 x2 y2 : ℚ)
    (hmask : pairs.filterMap (fun p => p.2.map (fun q => (p.1, q))) = [(x1, y1), (x2, y2)])
    (hne : x1 ≠ x2) :
    ∃ s i : ℚ, dataReduceReg rsqrt g pairs = .ok ⟨2, FV.fin i, FV.fin s, FV.nan⟩ := by
  have hss := ssxm_two_ne x1 y1 x2 y2 hne
  have hsame : ¬ allSameQ [x1, x2] := by
    intro hsame
    exact hne (hsame x1 (by simp) x2 (by simp))
  refine ⟨ssxymOf [(x1, y1), (x2, y2)] / ssxmOf [(x1, y1), (x2, y2)],
    qmean ([(x1, y1), (x2, y2)].map Prod.snd)
      - ssxymOf [(x1, y1), (x2, y2)] / ssxmOf [(x1, y1), (x2, y2)]
        * qmean ([(x1, y1), (x2, y2)].map Prod.fst), ?_⟩
  unfold dataReduceReg
  rw [hmask]
  simp [linregress, hsame, slopeOf, interceptOf, FV.div, FV.mul, FV.sub, FV.add,
    FV.neg, hss, tsf2F, sub_eq_add_neg]


/-- The empty regression: SciPy raises on empty inputs, so a group whose
temperature column is entirely missing raises rather than degrading. -/
theorem dataReduceReg_empty (rsqrt : ℚ → ℚ) (g : ℚ → ℤ → ℚ)
    (pairs : List (ℚ × Option ℚ))
    (hmask : pairs.filterMap (fun p => p.2.map (fun q => (p.1, q))) = []) :
    dataReduceReg rsqrt g pairs = .error "Inputs must not be empty." := by
  unfold dataReduceReg
  rw [hmask]
  simp [linregress]


/-- Counterexample to C3 as stated: a group with exactly two non-missing
years (n = 2 ≤ 2) does *not* get a missing slope and intercept — the
two-point fit through (0, 10) and (1, 20) stores slope 10 and intercept
10 (only the p-value is NaN, via the zero standard error and zero
degrees of freedom). -/
theorem regression_two_points_slope_present :
    dataReduceReg rsqrt0 g0 [((0 : ℚ), some (10 : ℚ)), ((1 : ℚ), some (20 : ℚ))]
      = .ok ⟨2, FV.fin 10, FV.fin 10, FV.nan⟩ ∧ FV.fin (10 : ℚ) ≠ FV.nan := by
  constructor
  · have hxm : ssxmOf [((0 : ℚ), (10 : ℚ)), (1, 20)] = 1 / 4 := by
      norm_num [ssxmOf, qmean]
    have hxym : ssxymOf [((0 : ℚ), (10 : ℚ)), (1, 20)] = 5 / 2 := by
      norm_num [ssxymOf, qmean]
    have hym : qmean [(10 : ℚ), 20] = 15 := by
      norm_num [qmean]
    have hxmean : qmean [(0 : ℚ), 1] = 1 / 2 := by
      norm_num [qmean]
    have hmask : ([((0 : ℚ), some (10 : ℚ)), ((1 : ℚ), some (20 : ℚ))]).filterMap
        (fun p => p.2.map (fun q => (p.1, q))) = [((0 : ℚ), (10 : ℚ)), (1, 20)] := rfl
    unfold dataReduceReg
    rw [hmask]
    have hsame : ¬ allSameQ [(0 : ℚ), 1] := by
      intro hsame
      have := hsame 0 (by simp) 1 (by simp)
      norm_num at this
    simp [linregress, hsame, slopeOf, interceptOf, hxm, hxym, hym, hxmean,
      FV.div, FV.mul, FV.sub, FV.add, FV.neg, tsf2F]
    norm_num
  · simp


/-- C3 (amended) -- Regression degeneracy on the code: a (month, day)
group with exactly one non-missing year stores NaN slope, intercept and
p-value without raising; a group with exactly two non-missing years (at
distinct year offsets) stores a NaN p-value but *finite* slope and
intercept (the exact two-point fit); and a group with no non-missing
year at all raises SciPy's empty-input error. -/
theorem regression_degeneracy :
    (∀ rsqrt : ℚ → ℚ, ∀ g : ℚ → ℤ → ℚ, ∀ pairs : List (ℚ × Option ℚ), ∀ x y : ℚ,
      pairs.filterMap (fun p => p.2.map (fun q => (p.1, q))) = [(x, y)] →
      dataReduceReg rsqrt g pairs = .ok ⟨1, FV.nan, FV.nan, FV.nan⟩) ∧
    (∀ rsqrt : ℚ → ℚ, ∀ g : ℚ → ℤ → ℚ, ∀ pairs : List (ℚ × Option ℚ), ∀ x1 y1 x2 y2 : ℚ,
      pairs.filterMap (fun p => p.2.map (fun q => (p.1, q))) = [(x1, y1), (x2, y2)] →
      x1 ≠ x2 →
      ∃ s i : ℚ, dataReduceReg rsqrt g pairs = .ok ⟨2, FV.fin i, FV.fin s, FV.nan⟩) ∧
    (∀ rsqrt : ℚ → ℚ, ∀ g : ℚ → ℤ → ℚ, ∀ pairs : List (ℚ × Option ℚ),
      pairs.filterMap (fun p => p.2.map (fun q => (p.1, q))) = [] →
      dataReduceReg rsqrt g pairs = .error "Inputs must not be empty.") :=
  ⟨fun rsqrt g pairs x y h => dataReduceReg_single rsqrt g pairs x y h,
   fun rsqrt g pairs x1 y1 x2 y2 h hne => dataReduceReg_two rsqrt g pairs x1 y1 x2 y2 h hne,
   fun rsqrt g pairs h => dataReduceReg_empty rsqrt g pairs h⟩


/-- Witness for the amended C3 at concrete groups: one year present →
all NaN；two years present → NaN p-value with finite fit; no year
present → the empty-input error. -/
theorem regression_degeneracy_witness :
    ([((3 : ℚ), some (7 : ℚ)), ((4 : ℚ), none)].filterMap
        (fun p => p.2.map (fun q => (p.1, q))) = [((3 : ℚ), (7 : ℚ))] ∧
      dataReduceReg rsqrt0 g0 [((3 : ℚ), some (7 : ℚ)), ((4 : ℚ), none)]
        = .ok ⟨1, FV.nan, FV.nan, FV.nan⟩) ∧
    (∃ s i : ℚ, dataReduceReg rsqrt0 g0 [((0 : ℚ), some (10 : ℚ)), ((1 : ℚ), some (20 : ℚ))]
        = .ok ⟨2, FV.fin i, FV.fin s, FV.nan⟩) ∧
    dataReduceReg rsqrt0 g0 [((5 : ℚ), (none : Option ℚ))]
      = .error "Inputs must not be empty." := by
  refine ⟨⟨rfl, ?_⟩, ?_, ?_⟩
  · exact (regression_degeneracy).1 rsqrt0 g0 _ 3 7 rfl
  · exact (regression_degeneracy).2.1 rsqrt0 g0 _ 0 10 1 20 rfl (by norm_num)
  · exact (regression_degeneracy).2.2 rsqrt0 g0 _ rfl


/-- Counterexample to C9 as stated: nothing guards `p_slope = 0` — a row
with `p_slope = 0` and slope 1 gets `-log_p = +inf` and infinite
products, for any finite-log model. -/
theorem log_p_infinite_at_zero :
    statsDerived lg0 (FV.fin 1) (FV.fin 0) = (FV.pinf, FV.pinf, FV.pinf) ∧
    FV.isInf FV.pinf := by
  constructor
  · simp [statsDerived, log10F, FV.neg, FV.mul, FV.abs]
  · trivial


/-- C9 (amended) -- The derived-column block applies `-log10` to
`p_slope` with no zero guard: every row whose `p_slope` is exactly 0 has
`-log_p = +inf`, and whenever its slope is a nonzero finite value the
weighted columns `-log_p*slope` and `-log_p*abs_slope` are infinite as
well, for every model of `log10`'s finite part. -/
theorem log_p_unguarded_zero_gives_inf (lg : ℚ → ℚ) (slope p_slope : FV)
    (hp : p_slope = FV.fin 0) :
    (statsDerived lg slope p_slope).1 = FV.pinf ∧
    (∀ s : ℚ, slope = FV.fin s → s ≠ 0 →
      FV.isInf (statsDerived lg slope p_slope).2.1 ∧
      FV.isInf (statsDerived lg slope p_slope).2.2) := by
  subst hp
  constructor
  · simp [statsDerived, log10F, FV.neg]
  · intro s hs hs0
    subst hs
    rcases lt_trichotomy s 0 with h | h | h
    · constructor
      · simp [statsDerived, log10F, FV.neg, FV.mul, hs0, not_lt.mpr (le_of_lt h), FV.isInf]
      · have habs : ¬ |s| < 0 := not_lt.mpr (abs_nonneg s)
        have habs0 : ¬ |s| = 0 := by simp [abs_eq_zero, hs0]
        have habspos : 0 < |s| := abs_pos.mpr hs0
        simp [statsDerived, log10F, FV.neg, FV.mul, FV.abs, habs0, habspos, FV.isInf]
    · exact absurd h hs0
    · constructor
      · simp [statsDerived, log10F, FV.neg, FV.mul, hs0, h, FV.isInf]
      · have habspos : 0 < |s| := abs_pos.mpr hs0
        have habs0 : ¬ |s| = 0 := by simp [abs_eq_zero, hs0]
        simp [statsDerived, log10F, FV.neg, FV.mul, FV.abs, habs0, habspos, FV.isInf]


/-- Witness for the amended C9 at slope 1, `p_slope = 0`. -/
theorem log_p_unguarded_zero_gives_inf_witness :
    (FV.fin (0 : ℚ) = FV.fin 0 ∧ FV.fin (1 : ℚ) = FV.fin 1 ∧ (1 : ℚ) ≠ 0) ∧
    (statsDerived lg0 (FV.fin 1) (FV.fin 0)).1 = FV.pinf ∧
    (FV.isInf (statsDerived lg0 (FV.fin 1) (FV.fin 0)).2.1 ∧
      FV.isInf (statsDerived lg0 (FV.fin 1) (FV.fin 0)).2.2) := by
  refine ⟨⟨rfl, rfl, by norm_num⟩, ?_, ?_⟩
  · exact (log_p_unguarded_zero_gives_inf lg0 (FV.fin 1) (FV.fin 0) rfl).1
  · exact (log_p_unguarded_zero_gives_inf lg0 (FV.fin 1) (FV.fin 0) rfl).2 1 rfl (by norm_num)


/-- C10 -- Computing the filtered view leaves the stored full table (and
the station constant) untouched, row for row; only the separate `raw`
view is produced, each of its rows being the masked original row plus
the two derived columns; and the persisted table is always the
unfiltered `_raw_full`, never the filtered view. -/
theorem filter_leaves_raw_full_unchanged (s : GState) :
    (rawDfFilter s).rawFull = s.rawFull ∧
    (rawDfFilter s).startDate = s.startDate ∧
    (rawDfFilter s).raw = some (rawFilter s.startDate s.rawFull) ∧
    (∀ r ∈ s.rawFull,
      (r.1, qualityFilterRow r.2
        ++ [("yeardiff", some (((r.1.year : ℤ) - s.startDate : ℤ) : ℚ)),
            ("SNPR", snprPy (((qualityFilterRow r.2).lookup "PRCP").join)
              (((qualityFilterRow r.2).lookup "SNOW").join))])
        ∈ rawFilter s.startDate s.rawFull) ∧
    rawDfSave (rawDfFilter s) = s.rawFull :=
  ⟨rfl, rfl, rfl, fun _ hr => List.mem_map_of_mem _ hr, rfl⟩


/-- Witness for C10 at a concrete state: the full table survives the
filter, the filtered view holds the masked row, and the save path
persists the full table. -/
theorem filter_leaves_raw_full_unchanged_witness :
    ((⟨2021, 1, 2⟩ : Date), c10Row) ∈ c10State.rawFull ∧
    (rawDfFilter c10State).rawFull = c10State.rawFull ∧
    (((⟨2021, 1, 2⟩ : Date), qualityFilterRow c10Row
      ++ [("yeardiff", some ((((⟨2021, 1, 2⟩ : Date).year : ℤ) - c10State.startDate : ℤ) : ℚ)),
          ("SNPR", snprPy (((qualityFilterRow c10Row).lookup "PRCP").join)
            (((qualityFilterRow c10Row).lookup "SNOW").join))])
      ∈ rawFilter c10State.startDate c10State.rawFull) ∧
    rawDfSave (rawDfFilter c10State) = c10State.rawFull := by
  refine ⟨by simp [c10State], ?_, ?_, ?_⟩
  · exact (filter_leaves_raw_full_unchanged c10State).1
  · exact (filter_leaves_raw_full_unchanged c10State).2.2.2.1
      (⟨2021, 1, 2⟩, c10Row) (by simp [c10State])
  · exact (filter_leaves_raw_full_unchanged c10State).2.2.2.2


end PyGHCND
